import Mathlib

/-!
Verification development for the SRS (spaced-repetition) core of the
manga-reader backend (`src/backend/services.py`, `src/backend/db.py`,
`src/backend/app.py`).

Modelling conventions:
* SQLite `REAL` columns (Python floats) are modelled as exact rationals `ℚ`.
  Every concrete evaluation below has a margin far larger than double
  rounding error, so the `ℚ` model and IEEE-754 agree on each stated fact.
* Python `int(x)` truncates toward zero; it is modelled by `pyInt`.
* Epoch-millisecond timestamps are `ℤ`.
* The SQLite store (tables `flashcards`, `srs_reviews`, `srs_stats`) is a
  `Store` record; the `FOREIGN KEY (card_id) REFERENCES flashcards(id)`
  constraint of `srs_reviews` together with `PRAGMA foreign_keys = ON`
  (db.py `get_conn`) makes an upsert of a review row for an unknown card
  fail, modelled by `Except`.
-/

namespace MangaSRS

/-- Python `int()` on a rational: truncation toward zero. -/
def pyInt (q : ℚ) : ℤ := if 0 ≤ q then ⌊q⌋ else ⌈q⌉

/-- A row of the `srs_reviews` table (db.py `init_db`). -/
structure ReviewRow where
  card_id : String
  interval_days : ℤ
  ease_factor : ℚ
  repetition : ℕ
  next_review : ℤ
  last_review : ℤ
  difficulty : ℤ
  streak : ℕ
deriving Repr, DecidableEq

/-- `SRSService.MIN_EASE_FACTOR` (services.py). -/
def minEaseFactor : ℚ := 13/10

/-- `SRSService.MAX_EASE_FACTOR` (services.py). -/
def maxEaseFactor : ℚ := 5/2

/-- `SRSService.INITIAL_EASE_FACTOR` (services.py). -/
def initialEaseFactor : ℚ := 5/2

/-- `SRSService.INITIAL_INTERVAL` (services.py). -/
def initialInterval : ℤ := 1

/-- The review dict built by `SRSService.initialize_card` (services.py),
before it is upserted. `nowMs` is `int(time.time() * 1000)`. -/
def initializeCardRow (cardId : String) (nowMs : ℤ) : ReviewRow :=
  { card_id := cardId
    interval_days := initialInterval
    ease_factor := initialEaseFactor
    repetition := 0
    next_review := nowMs
    last_review := 0
    difficulty := 3
    streak := 0 }

/-- The pure state transformation performed by `SRSService.review_card`
(services.py lines 350-388) on the loaded review row: streak update,
ease-factor adjustment, interval/repetition update, timestamps. -/
def reviewStep (r : ReviewRow) (difficulty : ℤ) (nowMs : ℤ) : ReviewRow :=
  let wasCorrect := difficulty ≤ 3
  let streak := if wasCorrect then r.streak + 1 else 0
  let ease :=
    if difficulty < 3 then
      min maxEaseFactor
        (r.ease_factor + (1/10 - ((3 : ℚ) - (difficulty : ℚ)) *
          (8/100 + ((3 : ℚ) - (difficulty : ℚ)) * (2/100))))
    else if 3 < difficulty then
      max minEaseFactor
        (r.ease_factor - 8/10 - ((difficulty : ℚ) - 4) * (28/100)
          - ((difficulty : ℚ) - 4) * ((difficulty : ℚ) - 4) * (2/100))
    else r.ease_factor
  let interval :=
    if wasCorrect then
      if r.repetition = 0 then 1
      else if r.repetition = 1 then 6
      else pyInt ((r.interval_days : ℚ) * ease)
    else 1
  let repetition := if wasCorrect then r.repetition + 1 else 0
  { r with
    streak := streak
    ease_factor := ease
    interval_days := interval
    repetition := repetition
    last_review := nowMs
    next_review := nowMs + interval * (24 * 60 * 60 * 1000)
    difficulty := difficulty }

/-- A finite sequence of committed reviews (difficulty, review time) applied
to a starting row: the reachable states of the scheduler. -/
def runReviews (r : ReviewRow) (ds : List (ℤ × ℤ)) : ReviewRow :=
  ds.foldl (fun st p => reviewStep st p.1 p.2) r

/-- The `srs_stats` singleton row (db.py `init_db` seeds `(1, 0, 0, now)`). -/
structure SrsStats where
  total_reviews : ℤ
  correct_answers : ℤ
  last_updated : ℤ
deriving Repr, DecidableEq

/-- The parts of the SQLite database the SRS core touches: the set of
flashcard ids, the `srs_reviews` table and the `srs_stats` singleton. -/
structure Store where
  flashcards : List String
  reviews : List ReviewRow
  stats : SrsStats
deriving Repr, DecidableEq

/-- db.py `get_srs_review`: `SELECT * FROM srs_reviews WHERE card_id = ?`. -/
def getSrsReview (s : Store) (cardId : String) : Option ReviewRow :=
  s.reviews.find? (fun r => r.card_id == cardId)

/-- `INSERT OR REPLACE` on the `srs_reviews` primary key `card_id`. -/
def upsertRows (rows : List ReviewRow) (r : ReviewRow) : List ReviewRow :=
  if rows.any (fun x => x.card_id == r.card_id) then
    rows.map (fun x => if x.card_id == r.card_id then r else x)
  else rows ++ [r]

/-- db.py `upsert_srs_review`. The `FOREIGN KEY (card_id) REFERENCES
flashcards(id)` constraint is enforced (`PRAGMA foreign_keys = ON` in
`get_conn`), so the statement raises when the card id has no flashcard row. -/
def upsertSrsReview (s : Store) (r : ReviewRow) : Except String Store :=
  if r.card_id ∈ s.flashcards then
    .ok { s with reviews := upsertRows s.reviews r }
  else
    .error "FOREIGN KEY constraint failed"

/-- db.py `update_srs_stats`: relative update of the singleton counters,
with no validation of the deltas. -/
def updateSrsStats (s : Store) (totalDelta correctDelta : ℤ) (nowMs : ℤ) : Store :=
  { s with stats :=
      { total_reviews := s.stats.total_reviews + totalDelta
        correct_answers := s.stats.correct_answers + correctDelta
        last_updated := nowMs } }

/-- `SRSService.initialize_card`: builds the default row and upserts it. -/
def initialize_card (s : Store) (cardId : String) (nowMs : ℤ) :
    Except String (Store × ReviewRow) :=
  let row := initializeCardRow cardId nowMs
  match upsertSrsReview s row with
  | .error e => .error e
  | .ok s' => .ok (s', row)

/-- The `review = get_srs_review(card_id); if not review: review =
SRSService.initialize_card(card_id)` prelude shared by `review_card` and
`preview_review`. -/
def loadOrInit (s : Store) (cardId : String) (nowMs : ℤ) :
    Except String (Store × ReviewRow) :=
  match getSrsReview s cardId with
  | some r => .ok (s, r)
  | none => initialize_card s cardId nowMs

/-- `SRSService.review_card`: load (auto-initializing on miss), apply the
SuperMemo-2 step, persist, bump global stats. -/
def review_card (s : Store) (cardId : String) (difficulty : ℤ) (nowMs : ℤ) :
    Except String (Store × ReviewRow) :=
  match loadOrInit s cardId nowMs with
  | .error e => .error e
  | .ok (s1, review) =>
    match upsertSrsReview s1 (reviewStep review difficulty nowMs) with
    | .error e => .error e
    | .ok s2 =>
      .ok (updateSrsStats s2 1 (if difficulty ≤ 3 then 1 else 0) nowMs,
        reviewStep review difficulty nowMs)

/-- The record returned by `SRSService.preview_review`. -/
structure PreviewResult where
  card_id : String
  predicted_interval_days : ℤ
  predicted_next_review : ℤ
  predicted_ease_factor : ℚ
  predicted_repetition : ℕ
  was_correct : Bool
  difficulty : ℤ
  current : ReviewRow
  streak_if_correct : ℕ
deriving Repr, DecidableEq

/-- The pure prediction computed by `SRSService.preview_review`
(services.py lines 408-456) from the loaded row. -/
def previewCompute (existing : ReviewRow) (cardId : String) (difficulty : ℤ)
    (nowMs : ℤ) : PreviewResult :=
  let wasCorrect := difficulty ≤ 3
  let streak := if wasCorrect then existing.streak + 1 else 0
  let ease :=
    if difficulty < 3 then
      min maxEaseFactor
        (existing.ease_factor + (1/10 - ((3 : ℚ) - (difficulty : ℚ)) *
          (8/100 + ((3 : ℚ) - (difficulty : ℚ)) * (2/100))))
    else if 3 < difficulty then
      max minEaseFactor
        (existing.ease_factor - 8/10 - ((difficulty : ℚ) - 4) * (28/100)
          - ((difficulty : ℚ) - 4) * ((difficulty : ℚ) - 4) * (2/100))
    else existing.ease_factor
  let interval :=
    if wasCorrect then
      if existing.repetition = 0 then 1
      else if existing.repetition = 1 then 6
      else pyInt ((existing.interval_days : ℚ) * ease)
    else 1
  let repetition := if wasCorrect then existing.repetition + 1 else 0
  { card_id := cardId
    predicted_interval_days := interval
    predicted_next_review := nowMs + interval * (24 * 60 * 60 * 1000)
    predicted_ease_factor := ease
    predicted_repetition := repetition
    was_correct := wasCorrect
    difficulty := difficulty
    current := existing
    streak_if_correct := streak }

/-- `SRSService.preview_review`: loads the row — calling the persisting
`initialize_card` when no row exists — then computes the prediction on a
copy without further writes and without touching stats. -/
def preview_review (s : Store) (cardId : String) (difficulty : ℤ)
    (nowMs : ℤ) : Except String (Store × PreviewResult) :=
  match loadOrInit s cardId nowMs with
  | .error e => .error e
  | .ok (s1, existing) => .ok (s1, previewCompute existing cardId difficulty nowMs)

/-- Whether an `Except` computation succeeded. -/
def exceptOk {ε α : Type} : Except ε α → Bool
  | .ok _ => true
  | .error _ => false

/-- A row of the `srs_settings` table (db.py `init_db`). -/
structure SrsSettings where
  id : String
  name : String
  min_ease_factor : ℚ
  max_ease_factor : ℚ
  initial_ease_factor : ℚ
  initial_interval : ℤ
  second_interval : ℤ
  max_difficulty : ℤ
  correct_threshold : ℤ
  easy_bonus : ℚ
  easy_penalty : ℚ
  easy_penalty_multiplier : ℚ
  hard_penalty : ℚ
  hard_penalty_linear : ℚ
  hard_penalty_quadratic : ℚ
  graduation_interval : ℤ
  max_interval : ℤ
  min_interval : ℤ
  lapse_multiplier : ℚ
  lapse_min_interval : ℤ
  created_at : ℤ
  updated_at : ℤ

/-- The default profile returned by db.py `get_srs_settings` when no row
exists, and written by `reset_srs_settings_to_defaults` (timestamps set
to 0, which no claim depends on). -/
def defaultSettings : SrsSettings :=
  { id := "default"
    name := "SuperMemo 2 (Default)"
    min_ease_factor := 13/10
    max_ease_factor := 5/2
    initial_ease_factor := 5/2
    initial_interval := 1
    second_interval := 6
    max_difficulty := 5
    correct_threshold := 3
    easy_bonus := 1/10
    easy_penalty := 8/100
    easy_penalty_multiplier := 2/100
    hard_penalty := 8/10
    hard_penalty_linear := 28/100
    hard_penalty_quadratic := 2/100
    graduation_interval := 21
    max_interval := 365
    min_interval := 1
    lapse_multiplier := 0
    lapse_min_interval := 1
    created_at := 0
    updated_at := 0 }

/-- A partial settings update: the JSON body of `POST /srs/settings`
restricted to the columns db.py `update_srs_settings` can change
(`id` and `created_at` are immutable; `updated_at` is overwritten). -/
structure SettingsUpdate where
  name : Option String := none
  min_ease_factor : Option ℚ := none
  max_ease_factor : Option ℚ := none
  initial_ease_factor : Option ℚ := none
  initial_interval : Option ℤ := none
  second_interval : Option ℤ := none
  max_difficulty : Option ℤ := none
  correct_threshold : Option ℤ := none
  easy_bonus : Option ℚ := none
  easy_penalty : Option ℚ := none
  easy_penalty_multiplier : Option ℚ := none
  hard_penalty : Option ℚ := none
  hard_penalty_linear : Option ℚ := none
  hard_penalty_quadratic : Option ℚ := none
  graduation_interval : Option ℤ := none
  max_interval : Option ℤ := none
  min_interval : Option ℤ := none
  lapse_multiplier : Option ℚ := none
  lapse_min_interval : Option ℤ := none

/-- db.py `update_srs_settings`: apply only the supplied fields onto the
current profile, keep `id`/`created_at`, refresh `updated_at`. -/
def applySettingsUpdate (cur : SrsSettings) (u : SettingsUpdate) (nowMs : ℤ) :
    SrsSettings :=
  { cur with
    name := u.name.getD cur.name
    min_ease_factor := u.min_ease_factor.getD cur.min_ease_factor
    max_ease_factor := u.max_ease_factor.getD cur.max_ease_factor
    initial_ease_factor := u.initial_ease_factor.getD cur.initial_ease_factor
    initial_interval := u.initial_interval.getD cur.initial_interval
    second_interval := u.second_interval.getD cur.second_interval
    max_difficulty := u.max_difficulty.getD cur.max_difficulty
    correct_threshold := u.correct_threshold.getD cur.correct_threshold
    easy_bonus := u.easy_bonus.getD cur.easy_bonus
    easy_penalty := u.easy_penalty.getD cur.easy_penalty
    easy_penalty_multiplier :=
      u.easy_penalty_multiplier.getD cur.easy_penalty_multiplier
    hard_penalty := u.hard_penalty.getD cur.hard_penalty
    hard_penalty_linear := u.hard_penalty_linear.getD cur.hard_penalty_linear
    hard_penalty_quadratic :=
      u.hard_penalty_quadratic.getD cur.hard_penalty_quadratic
    graduation_interval := u.graduation_interval.getD cur.graduation_interval
    max_interval := u.max_interval.getD cur.max_interval
    min_interval := u.min_interval.getD cur.min_interval
    lapse_multiplier := u.lapse_multiplier.getD cur.lapse_multiplier
    lapse_min_interval := u.lapse_min_interval.getD cur.lapse_min_interval
    updated_at := nowMs }

/-- app.py `update_srs_settings` endpoint validation: the collected (not
fail-fast) list of error messages, in source order. Each check fires only
when the involved fields are supplied in the request body. -/
def validateSettingsUpdate (u : SettingsUpdate) : List String :=
  (match u.min_ease_factor, u.max_ease_factor with
   | some mn, some mx =>
     if mx ≤ mn then
       ["Minimum ease factor must be less than maximum ease factor"] else []
   | _, _ => []) ++
  (match u.min_ease_factor with
   | some mn => if mn < 1 ∨ 3 < mn then
       ["Minimum ease factor must be between 1.0 and 3.0"] else []
   | none => []) ++
  (match u.max_ease_factor with
   | some mx => if mx < 1 ∨ 5 < mx then
       ["Maximum ease factor must be between 1.0 and 5.0"] else []
   | none => []) ++
  (match u.initial_interval with
   | some v => if v < 1 then ["Initial interval must be at least 1 day"] else []
   | none => []) ++
  (match u.second_interval with
   | some v => if v < 1 then ["Second interval must be at least 1 day"] else []
   | none => []) ++
  (match u.max_interval with
   | some v => if v < 1 then ["Maximum interval must be at least 1 day"] else []
   | none => []) ++
  (match u.correct_threshold, u.max_difficulty with
   | some ct, some md =>
     if md ≤ ct then
       ["Correct threshold must be less than maximum difficulty"] else []
   | _, _ => [])

/-- The `POST /srs/settings` endpoint: reject with the collected errors, or
commit the merged profile. -/
def updateSrsSettingsEndpoint (cur : SrsSettings) (u : SettingsUpdate)
    (nowMs : ℤ) : Except (List String) SrsSettings :=
  let errs := validateSettingsUpdate u
  if errs = [] then .ok (applySettingsUpdate cur u nowMs) else .error errs

/-- The cross-field constraints the specification requires of every stored
profile (spec §4.5). -/
def SettingsValid (s : SrsSettings) : Prop :=
  s.min_ease_factor < s.max_ease_factor ∧
  1 ≤ s.min_ease_factor ∧ s.min_ease_factor ≤ 3 ∧
  1 ≤ s.max_ease_factor ∧ s.max_ease_factor ≤ 5 ∧
  1 ≤ s.initial_interval ∧ 1 ≤ s.second_interval ∧ 1 ≤ s.max_interval ∧
  s.correct_threshold < s.max_difficulty

instance (s : SrsSettings) : Decidable (SettingsValid s) := by
  unfold SettingsValid; infer_instance

/-- Modelled from the spec (§4.1 ReviewScheduler): the settings-parametric
scheduling algorithm `review(currentState, difficulty, settings) → newState`
that the specification claims `review_card` implements. Used only to compare
against `reviewStep`, the embedding of the actual code. -/
def reviewSpec (st : SrsSettings) (r : ReviewRow) (difficulty : ℤ)
    (nowMs : ℤ) : ReviewRow :=
  let th := st.correct_threshold
  let wasCorrect := difficulty ≤ th
  let streak := if wasCorrect then r.streak + 1 else 0
  let ease :=
    if difficulty < th then
      min st.max_ease_factor
        (r.ease_factor + (st.easy_bonus - ((th : ℚ) - (difficulty : ℚ)) *
          (st.easy_penalty + ((th : ℚ) - (difficulty : ℚ)) *
            st.easy_penalty_multiplier)))
    else if th < difficulty then
      max st.min_ease_factor
        (r.ease_factor - (st.hard_penalty +
          ((difficulty : ℚ) - ((th : ℚ) + 1)) * st.hard_penalty_linear +
          ((difficulty : ℚ) - ((th : ℚ) + 1)) *
            ((difficulty : ℚ) - ((th : ℚ) + 1)) * st.hard_penalty_quadratic))
    else r.ease_factor
  let interval :=
    if wasCorrect then
      if r.repetition = 0 then st.initial_interval
      else if r.repetition = 1 then st.second_interval
      else ⌊(r.interval_days : ℚ) * ease⌋
    else st.lapse_min_interval
  let repetition := if wasCorrect then r.repetition + 1 else 0
  { r with
    streak := streak
    ease_factor := ease
    interval_days := interval
    repetition := repetition
    last_review := nowMs
    next_review := nowMs + interval * 86400000
    difficulty := difficulty }

/-- The `ORDER BY next_review` comparison of the due query. -/
def nrLe (a b : ReviewRow) : Prop := a.next_review ≤ b.next_review

instance : DecidableRel nrLe := fun a b => Int.decLe a.next_review b.next_review

instance : IsTotal ReviewRow nrLe := ⟨fun a b => le_total a.next_review b.next_review⟩

instance : IsTrans ReviewRow nrLe := ⟨fun _ _ _ hab hbc => le_trans hab hbc⟩

/-- db.py `get_cards_due_for_review`:
`SELECT * FROM srs_reviews WHERE next_review <= ? ORDER BY next_review
LIMIT ?` with `?` = the query-time clock and the limit. The sort is any
permutation ordered by `next_review`; insertion sort realizes it. -/
def get_cards_due_for_review (rows : List ReviewRow) (nowMs : ℤ)
    (limit : ℕ) : List ReviewRow :=
  (((rows.filter (fun r => decide (r.next_review ≤ nowMs))).insertionSort
    nrLe).take limit)

/-- UTC calendar day of an epoch-millisecond timestamp, as a day number:
`time.strftime('%Y-%m-%d', time.gmtime(ms / 1000))` names the same day for
two timestamps iff they have the same `⌊ms / 86400000⌋`. -/
def dayOfMs (ms : ℤ) : ℤ := Int.fdiv ms 86400000

/-- The qualifying-day set of db.py `get_srs_streak`: the UTC days of
`last_review` over all rows with `difficulty <= 3` (the correct threshold). -/
def qualifyingDays (rows : List ReviewRow) : List ℤ :=
  (rows.filter (fun r => decide (r.difficulty ≤ 3))).map
    (fun r => dayOfMs r.last_review)

/-- The backward walk of `get_srs_streak`: count consecutive days present in
the set, starting at `d` and stepping back one day per iteration, stopping
at the first gap; `fuel` is the 365-iteration safety cap. -/
def streakWalk (days : List ℤ) (d : ℤ) : ℕ → ℕ
  | 0 => 0
  | n + 1 => if d ∈ days then streakWalk days (d - 1) n + 1 else 0

/-- db.py `get_srs_streak`, parametrized by the wall clock in whole seconds
(`time.time()`): returns `(streak, today_has_review)`. -/
def get_srs_streak (rows : List ReviewRow) (nowSec : ℤ) : ℕ × Bool :=
  let days := qualifyingDays rows
  if days = [] then (0, false)
  else
    let today := Int.fdiv nowSec 86400
    (streakWalk days today 365, decide (today ∈ days))

/-! ## Shared helper lemmas -/

/-- Ease-factor bounds after one `review_card` step, for a row whose ease
factor lies in the configured default bounds: the upper bound always holds;
the lower bound holds for difficulty 2..5; difficulty 1 can undershoot the
lower bound by at most `14/100`. -/
lemma reviewStep_ease_bounds (r : ReviewRow) (d now : ℤ)
    (h1 : minEaseFactor ≤ r.ease_factor) (h2 : r.ease_factor ≤ maxEaseFactor)
    (hd1 : 1 ≤ d) (hd5 : d ≤ 5) :
    (reviewStep r d now).ease_factor ≤ maxEaseFactor ∧
    minEaseFactor - 14/100 ≤ (reviewStep r d now).ease_factor ∧
    (2 ≤ d → minEaseFactor ≤ (reviewStep r d now).ease_factor) := by
  unfold reviewStep
  simp only [minEaseFactor, maxEaseFactor] at h1 h2 ⊢
  interval_cases d <;>
    norm_num [min_def, max_def] <;>
    (try split_ifs) <;>
    (try constructor) <;>
    (try constructor) <;>
    linarith

/-- Python `int()` of a rational that is at least 1 is at least 1. -/
lemma pyInt_one_le {q : ℚ} (h : 1 ≤ q) : 1 ≤ pyInt q := by
  unfold pyInt
  rw [if_pos (le_trans zero_le_one h)]
  exact Int.le_floor.mpr (by exact_mod_cast h)

/-- One `review_card` step with difficulty 2..5 keeps the interval positive
when the incoming row has a positive interval and in-bounds ease factor. -/
lemma reviewStep_interval_pos (r : ReviewRow) (d now : ℤ)
    (hi : 1 ≤ r.interval_days)
    (h1 : minEaseFactor ≤ r.ease_factor) (h2 : r.ease_factor ≤ maxEaseFactor)
    (hd2 : 2 ≤ d) (hd5 : d ≤ 5) :
    1 ≤ (reviewStep r d now).interval_days := by
  have he : minEaseFactor ≤ (reviewStep r d now).ease_factor :=
    (reviewStep_ease_bounds r d now h1 h2 (by omega) hd5).2.2 hd2
  have hiq : (1 : ℚ) ≤ (r.interval_days : ℚ) := by exact_mod_cast hi
  simp only [reviewStep, minEaseFactor] at he ⊢
  split_ifs at he ⊢ <;> try norm_num
  all_goals (apply pyInt_one_le; nlinarith [he, hiq])

/-- Reviews with difficulties 2..5 preserve the joint invariant
"interval ≥ 1 and ease factor within the default bounds". -/
lemma runReviews_invariant (ds : List (ℤ × ℤ)) :
    ∀ r : ReviewRow, 1 ≤ r.interval_days → minEaseFactor ≤ r.ease_factor →
      r.ease_factor ≤ maxEaseFactor → (∀ p ∈ ds, 2 ≤ p.1 ∧ p.1 ≤ 5) →
      1 ≤ (runReviews r ds).interval_days ∧
      minEaseFactor ≤ (runReviews r ds).ease_factor ∧
      (runReviews r ds).ease_factor ≤ maxEaseFactor := by
  induction ds with
  | nil => exact fun r h1 h2 h3 _ => ⟨h1, h2, h3⟩
  | cons p ds ih =>
    intro r h1 h2 h3 hds
    have hp := hds p (List.mem_cons_self _ _)
    have e_up : (reviewStep r p.1 p.2).ease_factor ≤ maxEaseFactor :=
      (reviewStep_ease_bounds r p.1 p.2 h2 h3 (by omega) hp.2).1
    have e_lo : minEaseFactor ≤ (reviewStep r p.1 p.2).ease_factor :=
      (reviewStep_ease_bounds r p.1 p.2 h2 h3 (by omega) hp.2).2.2 hp.1
    have i_lo := reviewStep_interval_pos r p.1 p.2 h1 h2 h3 hp.1 hp.2
    have hrw : runReviews r (p :: ds) = runReviews (reviewStep r p.1 p.2) ds := rfl
    rw [hrw]
    exact ih _ i_lo e_lo e_up (fun q hq => hds q (List.mem_cons_of_mem _ hq))

/-! ## Claim C1 -/

/-- C1, counterexample: the state reached from a fresh card by two
difficulty-4 reviews has ease factor exactly `min_ease_factor = 1.3`,
inside the default bounds; reviewing it once more with difficulty 1 (a
value in `[1,5]`) produces ease factor `1.16 < min_ease_factor`, because
the easy branch subtracts `0.14` and clamps only against the maximum. -/
theorem C1_counterexample :
    (runReviews (initializeCardRow "c" 0) [(4, 0), (4, 0)]).ease_factor = 13/10 ∧
    minEaseFactor ≤ (13/10 : ℚ) ∧ (13/10 : ℚ) ≤ maxEaseFactor ∧
    (reviewStep (runReviews (initializeCardRow "c" 0) [(4, 0), (4, 0)]) 1 0).ease_factor
      = 29/25 ∧
    ¬ minEaseFactor ≤
      (reviewStep (runReviews (initializeCardRow "c" 0) [(4, 0), (4, 0)]) 1 0).ease_factor := by
  norm_num [runReviews, reviewStep, pyInt, minEaseFactor, maxEaseFactor,
    initializeCardRow, initialEaseFactor, initialInterval, min_def, max_def]

/-- C1 (amended): for every row whose ease factor lies in
`[min_ease_factor, max_ease_factor]` of the default profile and every
difficulty in `[1,5]`, after `review_card` the ease factor is at most
`max_ease_factor`; it is at least `min_ease_factor` whenever the difficulty
is in `[2,5]`; a difficulty-1 review can undershoot `min_ease_factor`, by
at most `0.14`. -/
theorem C1_ease_bounds_after_review (r : ReviewRow) (d now : ℤ)
    (h1 : minEaseFactor ≤ r.ease_factor) (h2 : r.ease_factor ≤ maxEaseFactor)
    (hd1 : 1 ≤ d) (hd5 : d ≤ 5) :
    (reviewStep r d now).ease_factor ≤ maxEaseFactor ∧
    (2 ≤ d → minEaseFactor ≤ (reviewStep r d now).ease_factor) ∧
    minEaseFactor - 14/100 ≤ (reviewStep r d now).ease_factor := by
  obtain ⟨a, b, c⟩ := reviewStep_ease_bounds r d now h1 h2 hd1 hd5
  exact ⟨a, c, b⟩

/-- C1, witness: the amended bound evaluated on a fresh card reviewed with
difficulty 4. -/
theorem C1_ease_bounds_after_review_witness :
    (reviewStep (initializeCardRow "w" 0) 4 0).ease_factor ≤ maxEaseFactor ∧
    (2 ≤ (4 : ℤ) → minEaseFactor ≤ (reviewStep (initializeCardRow "w" 0) 4 0).ease_factor) ∧
    minEaseFactor - 14/100 ≤ (reviewStep (initializeCardRow "w" 0) 4 0).ease_factor :=
  C1_ease_bounds_after_review (initializeCardRow "w" 0) 4 0
    (by norm_num [initializeCardRow, initialEaseFactor, minEaseFactor])
    (by norm_num [initializeCardRow, initialEaseFactor, maxEaseFactor])
    (by norm_num) (by norm_num)

/-! ## Claim C6 -/

/-- C6, counterexample: seventeen consecutive difficulty-1 reviews of a
fresh card — all difficulties in `[1,5]` — drive the unclamped ease factor
below 1 and the interval computed as `int(interval * ease)` down to 0, so
the reachable state violates `interval_days ≥ 1`. -/
theorem C6_counterexample :
    (runReviews (initializeCardRow "c" 0) (List.replicate 17 (1, 0))).interval_days = 0 ∧
    ¬ 1 ≤ (runReviews (initializeCardRow "c" 0) (List.replicate 17 (1, 0))).interval_days := by
  norm_num [runReviews, List.replicate, reviewStep, pyInt, minEaseFactor, maxEaseFactor,
    initializeCardRow, initialEaseFactor, initialInterval, min_def, max_def]

/-- C6 (amended): every state reached from a freshly initialized card by a
finite sequence of reviews with difficulties in `[2,5]` has
`interval_days ≥ 1` (and ease factor within the default bounds, which is
what keeps `int(interval * ease)` from reaching 0); with difficulty 1
allowed the property fails. -/
theorem C6_interval_ge_one (cardId : String) (t0 : ℤ) (ds : List (ℤ × ℤ))
    (h : ∀ p ∈ ds, 2 ≤ p.1 ∧ p.1 ≤ 5) :
    1 ≤ (runReviews (initializeCardRow cardId t0) ds).interval_days :=
  (runReviews_invariant ds (initializeCardRow cardId t0)
    (by norm_num [initializeCardRow, initialInterval])
    (by norm_num [initializeCardRow, initialEaseFactor, minEaseFactor])
    (by norm_num [initializeCardRow, initialEaseFactor, maxEaseFactor]) h).1

/-- C6, witness: the amended invariant evaluated on the review sequence
with difficulties 2, 5, 3. -/
theorem C6_interval_ge_one_witness :
    1 ≤ (runReviews (initializeCardRow "w" 0) [(2, 10), (5, 20), (3, 30)]).interval_days :=
  C6_interval_ge_one "w" 0 [(2, 10), (5, 20), (3, 30)] (by decide)

/-! ## Claim C3 -/

/-- C3, counterexample: the first `review_card` with difficulty 2 on a
freshly initialized card (repetition 0) sets `interval_days` to 1 — the
`repetition == 0` branch — not to 6 as the claim states. -/
theorem C3_counterexample :
    (reviewStep (initializeCardRow "c" 0) 2 1000).interval_days = 1 ∧
    (reviewStep (initializeCardRow "c" 0) 2 1000).interval_days ≠ 6 := by
  norm_num [reviewStep, initializeCardRow, initialInterval, initialEaseFactor,
    minEaseFactor, maxEaseFactor, pyInt, min_def, max_def]

/-- C3 (amended): under the default settings, starting from a freshly
initialized card (`interval_days=1, ease_factor=2.5, repetition=0,
difficulty=3`): `review_card` with difficulty 2 yields `interval_days=1`
and `repetition=1` (the repetition-0 branch, ease unchanged because the
difficulty-2 adjustment is exactly 0); a second `review_card` with
difficulty 2 yields `interval_days=6` and `repetition=2` (the repetition-1
branch uses the constant second interval, not `floor(6 × ease)`); a
subsequent `review_card` with difficulty 5 yields `repetition=0`,
`interval_days=1`, and `ease_factor=1.4`, which decreased and satisfies
`min_ease_factor ≤ 1.4`. -/
theorem C3_scenario :
    (initializeCardRow "c" 0).interval_days = 1 ∧
    (initializeCardRow "c" 0).ease_factor = 5/2 ∧
    (initializeCardRow "c" 0).repetition = 0 ∧
    (initializeCardRow "c" 0).difficulty = 3 ∧
    (reviewStep (initializeCardRow "c" 0) 2 1000).interval_days = 1 ∧
    (reviewStep (initializeCardRow "c" 0) 2 1000).repetition = 1 ∧
    (reviewStep (initializeCardRow "c" 0) 2 1000).ease_factor = 5/2 ∧
    (reviewStep (reviewStep (initializeCardRow "c" 0) 2 1000) 2 2000).interval_days = 6 ∧
    (reviewStep (reviewStep (initializeCardRow "c" 0) 2 1000) 2 2000).repetition = 2 ∧
    (reviewStep (reviewStep (initializeCardRow "c" 0) 2 1000) 2 2000).ease_factor = 5/2 ∧
    (reviewStep (reviewStep (reviewStep (initializeCardRow "c" 0) 2 1000) 2 2000)
      5 3000).repetition = 0 ∧
    (reviewStep (reviewStep (reviewStep (initializeCardRow "c" 0) 2 1000) 2 2000)
      5 3000).interval_days = 1 ∧
    (reviewStep (reviewStep (reviewStep (initializeCardRow "c" 0) 2 1000) 2 2000)
      5 3000).ease_factor = 7/5 ∧
    (7/5 : ℚ) < 5/2 ∧ minEaseFactor ≤ (7/5 : ℚ) := by
  norm_num [reviewStep, initializeCardRow, initialInterval, initialEaseFactor,
    minEaseFactor, maxEaseFactor, pyInt, min_def, max_def]

/-! ## Claim C4 -/

set_option maxHeartbeats 1600000

/-- Python `int()` agrees with the floor on nonnegative rationals. -/
lemma pyInt_eq_floor {q : ℚ} (h : 0 ≤ q) : pyInt q = ⌊q⌋ := if_pos h

/-- The partial settings update `{second_interval: 10}`. -/
def updSecondInterval10 : SettingsUpdate := { second_interval := some 10 }

/-- C4, counterexample: the update `{second_interval: 10}` passes validation
and commits a profile with `second_interval = 10`, yet `review_card` on a
repetition-1 state still yields `interval_days = 6`: the code hard-codes
the constants and never reads the stored profile, while the
settings-parametric algorithm of the claim would yield 10. -/
theorem C4_counterexample :
    validateSettingsUpdate updSecondInterval10 = [] ∧
    (applySettingsUpdate defaultSettings updSecondInterval10 0).second_interval = 10 ∧
    (reviewStep (initializeCardRow "c" 0) 2 0).repetition = 1 ∧
    (reviewStep (reviewStep (initializeCardRow "c" 0) 2 0) 2 0).interval_days = 6 ∧
    (reviewSpec (applySettingsUpdate defaultSettings updSecondInterval10 0)
      (reviewStep (initializeCardRow "c" 0) 2 0) 2 0).interval_days = 10 ∧
    (6 : ℤ) ≠ 10 := by
  norm_num [validateSettingsUpdate, updSecondInterval10, applySettingsUpdate,
    defaultSettings, reviewStep, reviewSpec, initializeCardRow, initialInterval,
    initialEaseFactor, minEaseFactor, maxEaseFactor, pyInt, min_def, max_def]

/-- C4 (amended): `review_card` does not read the stored settings profile;
it computes with fixed constants that coincide with the default profile.
Formally, on its working domain (nonnegative interval, ease factor at least
the default minimum, difficulty in `[1,5]`) the code's step equals the
spec's settings-parametric scheduler applied to the default profile —
hence changing the active profile never changes `review_card`'s result. -/
theorem C4_review_equals_spec_at_default_profile (r : ReviewRow) (d now : ℤ)
    (hi : 0 ≤ r.interval_days) (he : minEaseFactor ≤ r.ease_factor)
    (hd1 : 1 ≤ d) (hd5 : d ≤ 5) :
    reviewStep r d now = reviewSpec defaultSettings r d now := by
  have hiq : (0:ℚ) ≤ (r.interval_days : ℚ) := by exact_mod_cast hi
  have hez : (13/10:ℚ) ≤ r.ease_factor := he
  cases r with
  | mk cid i e rep nr lr diff st =>
    simp only [reviewStep, reviewSpec, defaultSettings, minEaseFactor, maxEaseFactor,
      pyInt] at hiq hez ⊢
    interval_cases d <;>
      simp only [ReviewRow.mk.injEq] <;> norm_num <;> (try split_ifs) <;>
      first
        | rfl
        | (norm_num; done)
        | (exfalso; rename_i hneg; apply hneg;
           first
             | (exact mul_nonneg hiq (le_min (by norm_num) (by linarith)))
             | (exact mul_nonneg hiq (by linarith)))
        | (rw [show (e : ℚ) - 4/5 - 7/25 - 1/50 = e - 11/10 from by ring])

/-- C4, witness: the coincidence with the default profile evaluated on a
fresh card reviewed with difficulty 2. -/
theorem C4_review_equals_spec_at_default_profile_witness :
    reviewStep (initializeCardRow "w" 5) 2 7
      = reviewSpec defaultSettings (initializeCardRow "w" 5) 2 7 :=
  C4_review_equals_spec_at_default_profile (initializeCardRow "w" 5) 2 7
    (by norm_num [initializeCardRow, initialInterval])
    (by norm_num [initializeCardRow, initialEaseFactor, minEaseFactor])
    (by norm_num) (by norm_num)

/-! ## Claim C2 -/

/-- A store holding one flashcard `"c1"` with no review row and zeroed
stats. -/
def storeC2 : Store := { flashcards := ["c1"], reviews := [], stats := ⟨0, 0, 0⟩ }

/-- C2: `preview_review` of a card with no stored ReviewState calls
`SRSService.initialize_card`, which upserts the default row — so the
preview call does write a ReviewState to the store, contradicting both the
claim and the function's own docstring ("does not write to DB"). Stats are
indeed untouched. -/
theorem C2_preview_persists_transient_default :
    getSrsReview storeC2 "c1" = none ∧
    preview_review storeC2 "c1" 3 1000
      = .ok ({ storeC2 with reviews := [initializeCardRow "c1" 1000] },
          previewCompute (initializeCardRow "c1" 1000) "c1" 3 1000) ∧
    ({ storeC2 with reviews := [initializeCardRow "c1" 1000] } : Store).reviews
      ≠ storeC2.reviews ∧
    ({ storeC2 with reviews := [initializeCardRow "c1" 1000] } : Store).stats
      = storeC2.stats := by
  refine ⟨rfl, rfl, ?_, rfl⟩
  simp [storeC2]

/-! ## Claim C7 -/

/-- An empty store: no flashcards, no reviews. -/
def storeEmpty : Store := { flashcards := [], reviews := [], stats := ⟨0, 0, 0⟩ }

/-- C7, counterexample: when no flashcard row exists at all, the enforced
foreign-key constraint makes the auto-initializing upsert fail, so both
`review_card` and `preview_review` raise instead of succeeding. -/
theorem C7_counterexample :
    review_card storeEmpty "x" 3 0 = .error "FOREIGN KEY constraint failed" ∧
    preview_review storeEmpty "x" 3 0 = .error "FOREIGN KEY constraint failed" :=
  ⟨rfl, rfl⟩

/-- C7 (amended): for every card id that has a flashcard row but no
ReviewState, `review_card` and `preview_review` succeed, auto-initializing
a fresh default state; when no flashcard row exists the foreign-key
constraint makes them fail. -/
theorem C7_reviews_succeed_when_flashcard_exists (s : Store) (cardId : String)
    (d now : ℤ) (hfc : cardId ∈ s.flashcards)
    (hmiss : getSrsReview s cardId = none) :
    exceptOk (review_card s cardId d now) = true ∧
    exceptOk (preview_review s cardId d now) = true := by
  unfold review_card preview_review loadOrInit initialize_card upsertSrsReview
  rw [hmiss]
  simp [initializeCardRow, reviewStep, hfc, exceptOk]

/-- A store holding one flashcard `"w"` with no review row. -/
def storeC7w : Store := { flashcards := ["w"], reviews := [], stats := ⟨0, 0, 0⟩ }

/-- C7, witness: the amended success property evaluated on a store with
flashcard `"w"` and no review rows. -/
theorem C7_reviews_succeed_when_flashcard_exists_witness :
    exceptOk (review_card storeC7w "w" 4 9) = true ∧
    exceptOk (preview_review storeC7w "w" 4 9) = true :=
  C7_reviews_succeed_when_flashcard_exists storeC7w "w" 4 9
    (by simp [storeC7w]) rfl

/-! ## Claim C9 -/

/-- Loading (with auto-initialization) never changes the stats row. -/
lemma loadOrInit_stats (s : Store) (c : String) (n : ℤ) (s1 : Store)
    (r : ReviewRow) (h : loadOrInit s c n = .ok (s1, r)) : s1.stats = s.stats := by
  unfold loadOrInit initialize_card upsertSrsReview at h
  cases hg : getSrsReview s c with
  | some r0 =>
    rw [hg] at h
    simp only [Except.ok.injEq, Prod.mk.injEq] at h
    rw [← h.1]
  | none =>
    rw [hg] at h
    dsimp only at h
    split_ifs at h
    simp only [Except.ok.injEq, Prod.mk.injEq] at h
    rw [← h.1]

/-- A successful review upsert never changes the stats row. -/
lemma upsertSrsReview_stats (s : Store) (r : ReviewRow) (s' : Store)
    (h : upsertSrsReview s r = .ok s') : s'.stats = s.stats := by
  unfold upsertSrsReview at h
  split_ifs at h
  simp only [Except.ok.injEq] at h
  rw [← h]

/-- A committed review adds exactly 1 to `total_reviews` and adds 1 to
`correct_answers` iff the difficulty counted as correct. -/
lemma review_card_stats_effect (s : Store) (c : String) (d now : ℤ)
    (s' : Store) (r : ReviewRow) (h : review_card s c d now = .ok (s', r)) :
    s'.stats.total_reviews = s.stats.total_reviews + 1 ∧
    s'.stats.correct_answers
      = s.stats.correct_answers + (if d ≤ 3 then 1 else 0) := by
  unfold review_card at h
  cases hl : loadOrInit s c now with
  | error e => rw [hl] at h; simp at h
  | ok p =>
    obtain ⟨s1, r1⟩ := p
    rw [hl] at h
    dsimp only at h
    cases hu : upsertSrsReview s1 (reviewStep r1 d now) with
    | error e => rw [hu] at h; simp at h
    | ok s2 =>
      rw [hu] at h
      simp only [Except.ok.injEq, Prod.mk.injEq] at h
      have e1 := loadOrInit_stats s c now s1 r1 hl
      have e2 := upsertSrsReview_stats s1 _ s2 hu
      rw [← h.1]
      simp [updateSrsStats, e1, e2]

/-- C9, counterexample: the relative stats endpoint applies unvalidated
deltas, so from the initial `(0, 0)` a single `POST /srs/stats` with
`correct_answers_delta = 1` makes `correct_answers > total_reviews`, and
one with `total_reviews_delta = -1` decreases `total_reviews`. -/
theorem C9_counterexample :
    (updateSrsStats storeEmpty 0 1 5).stats.correct_answers = 1 ∧
    (updateSrsStats storeEmpty 0 1 5).stats.total_reviews = 0 ∧
    ¬ (updateSrsStats storeEmpty 0 1 5).stats.correct_answers
        ≤ (updateSrsStats storeEmpty 0 1 5).stats.total_reviews ∧
    (updateSrsStats storeEmpty (-1) 0 5).stats.total_reviews
      < storeEmpty.stats.total_reviews := by
  refine ⟨rfl, rfl, ?_, ?_⟩ <;> simp [updateSrsStats, storeEmpty]

/-- C9 (amended): a committed review keeps both counters non-decreasing and
preserves `correct_answers ≤ total_reviews`; the relative stats adjustment
preserves these properties only under the (unenforced) side conditions
`0 ≤ correct_delta ≤ total_delta`. -/
theorem C9_stats_monotonicity (s : Store) (c : String) (d now tΔ cΔ : ℤ)
    (s' : Store) (r : ReviewRow)
    (hrev : review_card s c d now = .ok (s', r))
    (h0 : 0 ≤ cΔ) (h1 : cΔ ≤ tΔ)
    (hinv : s.stats.correct_answers ≤ s.stats.total_reviews) :
    s.stats.total_reviews ≤ s'.stats.total_reviews ∧
    s.stats.correct_answers ≤ s'.stats.correct_answers ∧
    s'.stats.correct_answers ≤ s'.stats.total_reviews ∧
    s.stats.total_reviews ≤ (updateSrsStats s tΔ cΔ now).stats.total_reviews ∧
    s.stats.correct_answers
      ≤ (updateSrsStats s tΔ cΔ now).stats.correct_answers ∧
    (updateSrsStats s tΔ cΔ now).stats.correct_answers
      ≤ (updateSrsStats s tΔ cΔ now).stats.total_reviews := by
  obtain ⟨ht, hc⟩ := review_card_stats_effect s c d now s' r hrev
  simp only [updateSrsStats]
  rw [ht, hc]
  rcases le_or_lt d 3 with hd | hd
  · rw [if_pos hd]
    refine ⟨?_, ?_, ?_, ?_, ?_, ?_⟩ <;> omega
  · rw [if_neg (by omega)]
    refine ⟨?_, ?_, ?_, ?_, ?_, ?_⟩ <;> omega

/-- The review row committed by `review_card storeC2 "c1" 2 50`. -/
def rowC9 : ReviewRow :=
  { card_id := "c1", interval_days := 1, ease_factor := 5/2, repetition := 1,
    next_review := 86400050, last_review := 50, difficulty := 2, streak := 1 }

/-- The store after `review_card storeC2 "c1" 2 50`. -/
def storeC9 : Store :=
  { flashcards := ["c1"], reviews := [rowC9], stats := ⟨1, 1, 50⟩ }

/-- C9, witness: monotonicity evaluated on the committed difficulty-2
review of card `"c1"` and on a `(2, 1)` stats adjustment. -/
theorem C9_stats_monotonicity_witness :
    storeC2.stats.total_reviews ≤ storeC9.stats.total_reviews ∧
    storeC2.stats.correct_answers ≤ storeC9.stats.correct_answers ∧
    storeC9.stats.correct_answers ≤ storeC9.stats.total_reviews ∧
    storeC2.stats.total_reviews
      ≤ (updateSrsStats storeC2 2 1 50).stats.total_reviews ∧
    storeC2.stats.correct_answers
      ≤ (updateSrsStats storeC2 2 1 50).stats.correct_answers ∧
    (updateSrsStats storeC2 2 1 50).stats.correct_answers
      ≤ (updateSrsStats storeC2 2 1 50).stats.total_reviews :=
  C9_stats_monotonicity storeC2 "c1" 2 50 2 1 storeC9 rowC9
    (by norm_num [review_card, loadOrInit, getSrsReview, initialize_card,
      upsertSrsReview, upsertRows, updateSrsStats, reviewStep, initializeCardRow,
      initialInterval, initialEaseFactor, minEaseFactor, maxEaseFactor, pyInt,
      storeC2, storeC9, rowC9, min_def, max_def])
    (by norm_num) (by norm_num) (by simp [storeC2])

/-! ## Claim C5 -/

/-- C5: the due query returns only rows with `next_review ≤ now`, sorted
ascending by `next_review` (so every returned card is ordered ahead of any
returned card with a later `next_review`), truncated to at most `limit`
rows; and every stored row with `next_review ≤ now` is returned whenever
the due set fits within the limit. -/
theorem C5_due_query (rows : List ReviewRow) (nowMs : ℤ) (limit : ℕ) :
    (∀ c ∈ get_cards_due_for_review rows nowMs limit, c.next_review ≤ nowMs) ∧
    List.Sorted nrLe (get_cards_due_for_review rows nowMs limit) ∧
    (get_cards_due_for_review rows nowMs limit).length ≤ limit ∧
    (∀ c ∈ rows, c.next_review ≤ nowMs →
      (rows.filter (fun r => decide (r.next_review ≤ nowMs))).length ≤ limit →
      c ∈ get_cards_due_for_review rows nowMs limit) := by
  unfold get_cards_due_for_review
  refine ⟨?_, ?_, ?_, ?_⟩
  · intro c hc
    have h1 : c ∈ (rows.filter
        (fun r => decide (r.next_review ≤ nowMs))).insertionSort nrLe :=
      List.mem_of_mem_take hc
    have h2 : c ∈ rows.filter (fun r => decide (r.next_review ≤ nowMs)) :=
      (List.perm_insertionSort nrLe _).mem_iff.mp h1
    simpa using (List.mem_filter.mp h2).2
  · exact List.Pairwise.sublist (List.take_sublist _ _)
      (List.sorted_insertionSort nrLe _)
  · exact List.length_take_le limit _
  · intro c hc hle hlen
    have hmemf : c ∈ rows.filter (fun r => decide (r.next_review ≤ nowMs)) :=
      List.mem_filter.mpr ⟨hc, by simpa using hle⟩
    have hmemsort : c ∈ (rows.filter
        (fun r => decide (r.next_review ≤ nowMs))).insertionSort nrLe :=
      (List.perm_insertionSort nrLe _).mem_iff.mpr hmemf
    have hlen2 : ((rows.filter
        (fun r => decide (r.next_review ≤ nowMs))).insertionSort nrLe).length
        ≤ limit := by
      rw [(List.perm_insertionSort nrLe _).length_eq]
      exact hlen
    rw [List.take_of_length_le hlen2]
    exact hmemsort

/-- A due review row of card `"a"`, due at 10. -/
def rowDueA : ReviewRow :=
  { card_id := "a", interval_days := 1, ease_factor := 1, repetition := 0,
    next_review := 10, last_review := 0, difficulty := 3, streak := 0 }

/-- A not-yet-due review row of card `"b"`, due at 100. -/
def rowDueB : ReviewRow :=
  { card_id := "b", interval_days := 1, ease_factor := 1, repetition := 0,
    next_review := 100, last_review := 0, difficulty := 3, streak := 0 }

/-- A due review row of card `"c"`, due at 50. -/
def rowDueC : ReviewRow :=
  { card_id := "c", interval_days := 1, ease_factor := 1, repetition := 0,
    next_review := 50, last_review := 0, difficulty := 3, streak := 0 }

/-- C5, witness: over the three-row store queried at time 60 with limit 5,
the due row of card `"c"` is returned. -/
theorem C5_due_query_witness :
    rowDueC ∈ get_cards_due_for_review [rowDueA, rowDueB, rowDueC] 60 5 :=
  (C5_due_query [rowDueA, rowDueB, rowDueC] 60 5).2.2.2 rowDueC
    (by simp) (by norm_num [rowDueC])
    (by norm_num [rowDueA, rowDueB, rowDueC, List.filter])

/-! ## Claim C8 -/

/-- The partial settings update `{min_ease_factor: 2.6}`. -/
def updMinEase26 : SettingsUpdate := { min_ease_factor := some (13/5) }

/-- C8, counterexample: starting from the valid default profile, the
update supplying only `min_ease_factor = 2.6` passes validation (2.6 lies
in `[1.0, 3.0]` and the `min < max` check fires only when both fields are
supplied), yet the committed profile has `min_ease_factor = 2.6 ≥
max_ease_factor = 2.5`, violating the cross-field constraint. -/
theorem C8_counterexample :
    SettingsValid defaultSettings ∧
    validateSettingsUpdate updMinEase26 = [] ∧
    ¬ SettingsValid (applySettingsUpdate defaultSettings updMinEase26 0) := by
  refine ⟨by norm_num [SettingsValid, defaultSettings], ?_, ?_⟩
  · norm_num [validateSettingsUpdate, updMinEase26]
  · intro hv
    exact absurd hv.1
      (by norm_num [applySettingsUpdate, defaultSettings, updMinEase26])

/-- C8 (amended): when the stored profile satisfies the constraints and a
partial update is accepted, the committed profile satisfies every
single-field range constraint, and a cross-field pair constraint whenever
the update supplies both fields of the pair or neither; supplying exactly
one field of a pair can commit a violating profile. -/
theorem C8_settings_validation (stored : SrsSettings) (u : SettingsUpdate)
    (nowMs : ℤ) (hv : SettingsValid stored)
    (hok : validateSettingsUpdate u = []) :
    (1 ≤ (applySettingsUpdate stored u nowMs).min_ease_factor ∧
      (applySettingsUpdate stored u nowMs).min_ease_factor ≤ 3) ∧
    (1 ≤ (applySettingsUpdate stored u nowMs).max_ease_factor ∧
      (applySettingsUpdate stored u nowMs).max_ease_factor ≤ 5) ∧
    1 ≤ (applySettingsUpdate stored u nowMs).initial_interval ∧
    1 ≤ (applySettingsUpdate stored u nowMs).second_interval ∧
    1 ≤ (applySettingsUpdate stored u nowMs).max_interval ∧
    (u.min_ease_factor.isSome = u.max_ease_factor.isSome →
      (applySettingsUpdate stored u nowMs).min_ease_factor
        < (applySettingsUpdate stored u nowMs).max_ease_factor) ∧
    (u.correct_threshold.isSome = u.max_difficulty.isSome →
      (applySettingsUpdate stored u nowMs).correct_threshold
        < (applySettingsUpdate stored u nowMs).max_difficulty) := by
  unfold SettingsValid at hv
  obtain ⟨hvord, hvmn1, hvmn3, hvmx1, hvmx5, hvii, hvsi, hvmi, hvtd⟩ := hv
  unfold validateSettingsUpdate at hok
  simp only [List.append_eq_nil] at hok
  obtain ⟨⟨⟨⟨⟨⟨h1, h2⟩, h3⟩, h4⟩, h5⟩, h6⟩, h7⟩ := hok
  simp only [applySettingsUpdate]
  refine ⟨?_, ?_, ?_, ?_, ?_, ?_, ?_⟩
  · cases hmn : u.min_ease_factor with
    | none => simpa [hmn] using ⟨hvmn1, hvmn3⟩
    | some v =>
      rw [hmn] at h2
      dsimp only at h2
      split_ifs at h2 with hc
      push_neg at hc
      simpa [hmn] using hc
  · cases hmx : u.max_ease_factor with
    | none => simpa [hmx] using ⟨hvmx1, hvmx5⟩
    | some v =>
      rw [hmx] at h3
      dsimp only at h3
      split_ifs at h3 with hc
      push_neg at hc
      simpa [hmx] using hc
  · cases hii : u.initial_interval with
    | none => simpa [hii] using hvii
    | some v =>
      rw [hii] at h4
      dsimp only at h4
      split_ifs at h4 with hc
      push_neg at hc
      simpa [hii] using hc
  · cases hsi : u.second_interval with
    | none => simpa [hsi] using hvsi
    | some v =>
      rw [hsi] at h5
      dsimp only at h5
      split_ifs at h5 with hc
      push_neg at hc
      simpa [hsi] using hc
  · cases hmi : u.max_interval with
    | none => simpa [hmi] using hvmi
    | some v =>
      rw [hmi] at h6
      dsimp only at h6
      split_ifs at h6 with hc
      push_neg at hc
      simpa [hmi] using hc
  · cases hmn : u.min_ease_factor with
    | none =>
      cases hmx : u.max_ease_factor with
      | none => intro _; simpa [hmn, hmx] using hvord
      | some w => intro hsame; simp at hsame
    | some v =>
      cases hmx : u.max_ease_factor with
      | none => intro hsame; simp at hsame
      | some w =>
        intro _
        rw [hmn, hmx] at h1
        dsimp only at h1
        split_ifs at h1 with hc
        push_neg at hc
        simpa [hmn, hmx] using hc
  · cases hct : u.correct_threshold with
    | none =>
      cases hmd : u.max_difficulty with
      | none => intro _; simpa [hct, hmd] using hvtd
      | some w => intro hsame; simp at hsame
    | some v =>
      cases hmd : u.max_difficulty with
      | none => intro hsame; simp at hsame
      | some w =>
        intro _
        rw [hct, hmd] at h7
        dsimp only at h7
        split_ifs at h7 with hc
        push_neg at hc
        simpa [hct, hmd] using hc

/-- C8, witness: the amended guarantee evaluated on the default profile and
the empty update. -/
theorem C8_settings_validation_witness :
    (1 ≤ (applySettingsUpdate defaultSettings {} 9).min_ease_factor ∧
      (applySettingsUpdate defaultSettings {} 9).min_ease_factor ≤ 3) ∧
    (1 ≤ (applySettingsUpdate defaultSettings {} 9).max_ease_factor ∧
      (applySettingsUpdate defaultSettings {} 9).max_ease_factor ≤ 5) ∧
    1 ≤ (applySettingsUpdate defaultSettings {} 9).initial_interval ∧
    1 ≤ (applySettingsUpdate defaultSettings {} 9).second_interval ∧
    1 ≤ (applySettingsUpdate defaultSettings {} 9).max_interval ∧
    ((SettingsUpdate.min_ease_factor {}).isSome
        = (SettingsUpdate.max_ease_factor {}).isSome →
      (applySettingsUpdate defaultSettings {} 9).min_ease_factor
        < (applySettingsUpdate defaultSettings {} 9).max_ease_factor) ∧
    ((SettingsUpdate.correct_threshold {}).isSome
        = (SettingsUpdate.max_difficulty {}).isSome →
      (applySettingsUpdate defaultSettings {} 9).correct_threshold
        < (applySettingsUpdate defaultSettings {} 9).max_difficulty) :=
  C8_settings_validation defaultSettings {} 9
    (by norm_num [SettingsValid, defaultSettings]) rfl

/-! ## Claim C10 -/

/-- One-step unfolding of the backward walk. -/
lemma streakWalk_succ (days : List ℤ) (d : ℤ) (n : ℕ) :
    streakWalk days d (n + 1)
      = if d ∈ days then streakWalk days (d - 1) n + 1 else 0 := rfl

/-- The backward walk never exceeds its fuel (365 iterations). -/
lemma streakWalk_le_fuel (days : List ℤ) : ∀ (d : ℤ) (n : ℕ),
    streakWalk days d n ≤ n := by
  intro d n
  induction n generalizing d with
  | zero => simp [streakWalk]
  | succ n ih =>
    rw [streakWalk_succ]
    split_ifs
    · exact Nat.succ_le_succ (ih _)
    · exact Nat.zero_le _

/-- C10: with qualifying reviews (difficulty ≤ 3) on the three consecutive
UTC days `D, D-1, D-2` and none on `D-3`, the streak computed on day `D`
is exactly 3 and `today_has_review` is true; moreover (for all inputs) the
result is `(0, false)` when no correct review exists, `today_has_review`
holds exactly when today's UTC day is a qualifying day, the walk is
bounded by 365, and the qualifying-day set consists precisely of the UTC
days of `last_review` over rows with `difficulty ≤ 3`. -/
theorem C10_streak (rows : List ReviewRow) (nowSec : ℤ)
    (hD : Int.fdiv nowSec 86400 ∈ qualifyingDays rows)
    (hD1 : Int.fdiv nowSec 86400 - 1 ∈ qualifyingDays rows)
    (hD2 : Int.fdiv nowSec 86400 - 2 ∈ qualifyingDays rows)
    (hD3 : Int.fdiv nowSec 86400 - 3 ∉ qualifyingDays rows) :
    (get_srs_streak rows nowSec).1 = 3 ∧
    (get_srs_streak rows nowSec).2 = true ∧
    (∀ (rows2 : List ReviewRow) (t : ℤ), qualifyingDays rows2 = [] →
      get_srs_streak rows2 t = (0, false)) ∧
    (∀ (rows2 : List ReviewRow) (t : ℤ),
      (get_srs_streak rows2 t).2 = true ↔ Int.fdiv t 86400 ∈ qualifyingDays rows2) ∧
    (∀ (rows2 : List ReviewRow) (t : ℤ), (get_srs_streak rows2 t).1 ≤ 365) ∧
    (∀ (rows2 : List ReviewRow) (d : ℤ), d ∈ qualifyingDays rows2 ↔
      ∃ r ∈ rows2, r.difficulty ≤ 3 ∧ dayOfMs r.last_review = d) := by
  have hne : qualifyingDays rows ≠ [] := List.ne_nil_of_mem hD
  refine ⟨?_, ?_, ?_, ?_, ?_, ?_⟩
  · unfold get_srs_streak
    rw [if_neg hne]
    show streakWalk (qualifyingDays rows) (Int.fdiv nowSec 86400) 365 = 3
    rw [show (365 : ℕ) = 364 + 1 from rfl, streakWalk_succ, if_pos hD]
    rw [show (364 : ℕ) = 363 + 1 from rfl, streakWalk_succ, if_pos hD1]
    rw [show Int.fdiv nowSec 86400 - 1 - 1 = Int.fdiv nowSec 86400 - 2 from by ring]
    rw [show (363 : ℕ) = 362 + 1 from rfl, streakWalk_succ, if_pos hD2]
    rw [show Int.fdiv nowSec 86400 - 2 - 1 = Int.fdiv nowSec 86400 - 3 from by ring]
    rw [show (362 : ℕ) = 361 + 1 from rfl, streakWalk_succ, if_neg hD3]
  · unfold get_srs_streak
    rw [if_neg hne]
    exact decide_eq_true hD
  · intro rows2 t h
    unfold get_srs_streak
    rw [if_pos h]
  · intro rows2 t
    unfold get_srs_streak
    by_cases h : qualifyingDays rows2 = []
    · rw [if_pos h, h]
      simp
    · rw [if_neg h]
      simp
  · intro rows2 t
    unfold get_srs_streak
    by_cases h : qualifyingDays rows2 = []
    · rw [if_pos h]
      simp
    · rw [if_neg h]
      exact streakWalk_le_fuel _ _ _
  · intro rows2 d
    unfold qualifyingDays
    simp [List.mem_filter, and_assoc]

/-- Three review rows whose correct reviews fall on UTC days 3, 2 and 1. -/
def rowsStreak : List ReviewRow :=
  [{ card_id := "a", interval_days := 1, ease_factor := 1, repetition := 1,
     next_review := 0, last_review := 3 * 86400000, difficulty := 3, streak := 1 },
   { card_id := "b", interval_days := 1, ease_factor := 1, repetition := 1,
     next_review := 0, last_review := 2 * 86400000, difficulty := 2, streak := 1 },
   { card_id := "c", interval_days := 1, ease_factor := 1, repetition := 1,
     next_review := 0, last_review := 1 * 86400000, difficulty := 1, streak := 1 }]

/-- C10, witness: the streak evaluated on UTC day 3 over reviews on days
3, 2, 1 (and none on day 0) is 3, with `today_has_review` true. -/
theorem C10_streak_witness :
    (get_srs_streak rowsStreak (3 * 86400)).1 = 3 ∧
    (get_srs_streak rowsStreak (3 * 86400)).2 = true :=
  ⟨(C10_streak rowsStreak (3 * 86400) (by decide) (by decide) (by decide)
      (by decide)).1,
   (C10_streak rowsStreak (3 * 86400) (by decide) (by decide) (by decide)
      (by decide)).2.1⟩

end MangaSRS
